import Mathlib

/-!
Verification of the riboviz test-data generation and configuration-migration
utilities (modules `riboviz.utils`, `riboviz.upgrade_config`,
`riboviz.create_fastq_simdata`, `riboviz.tools.compare_files`), as a shallow
embedding in Lean 4.

Python dictionaries holding configuration are embedded as functions
`String → Option PyVal` (absent key ↦ `Option.none`); the dictionary passed to
`riboviz.utils.value_in_dict` is embedded as an association list, which also
lets nested lists and dictionaries be values.  `PyVal` covers the Python values
these modules store in dictionaries: `None`, booleans, integers, strings,
lists and dictionaries.  Python truthiness (`bool(v)`) is `truthy`.
-/
/-- A Python value as stored in the configuration dictionaries of these
modules: `None`, a bool, an int, a string, a list or a (string-keyed) dict. -/
inductive PyVal where
  | none : PyVal
  | bool (b : Bool) : PyVal
  | int (n : Int) : PyVal
  | str (s : String) : PyVal
  | list (l : List PyVal) : PyVal
  | dict (d : List (String × PyVal)) : PyVal

/-- Python `bool(v)` for a `PyVal`: `None`, `False`, `0`, `""`, `[]` and `{}`
are falsy, everything else truthy. -/
def truthy : PyVal → Bool
  | PyVal.none => false
  | PyVal.bool b => b
  | PyVal.int n => n != 0
  | PyVal.str s => s != ""
  | PyVal.list l => !l.isEmpty
  | PyVal.dict d => !d.isEmpty

/-- Python `v is None` for a `PyVal`. -/
def pyIsNone : PyVal → Bool
  | PyVal.none => true
  | _ => false

namespace Utils

/-- Python dictionary lookup `dictionary[key]` / `key in dictionary` over an
association list: the value at the first matching key, if any. -/
def dictLookup (dictionary : List (String × PyVal)) (key : String) : Option PyVal :=
  (dictionary.find? (fun p => p.1 == key)).map (fun p => p.2)

/-- `riboviz.utils.value_in_dict(key, dictionary, allow_false_empty=False)`:
the key is in the dictionary, its value is not `None`, and - unless
`allow_false_empty` - the value is truthy. -/
def value_in_dict (key : String) (dictionary : List (String × PyVal))
    (allow_false_empty : Bool := false) : Bool :=
  let is_in := (dictLookup dictionary key).isSome &&
    !(pyIsNone ((dictLookup dictionary key).getD PyVal.none))
  if !allow_false_empty then
    is_in && truthy ((dictLookup dictionary key).getD PyVal.none)
  else
    is_in

end Utils

namespace Simdata

/-!
`riboviz.create_fastq_simdata`: simulated FASTQ data.

Python's global pseudo-random generator is embedded as a stream of draws
together with a position (`Rng`).  `random.seed(42)` resets the state to the
stream the generator's algorithm derives from seed 42; that derivation lives
in the Python standard library, outside this repository, so it is kept
abstract: a function from seeds to streams is passed in.  `random.choices`
is modelled as indexing the population by successive draws, which keeps
exactly what the code relies on: the number of draws, and that the draws are
a function of the generator state alone.

Python slices with negative bounds, as used by the trimming helpers
(`sequence[0:-trim]`, `sequence[-trim:]`), are embedded by `pyToNeg` and
`pyFromNeg`, including the `-0 == 0` corner: `x[0:-0]` is empty and
`x[-0:]` is all of `x`.
-/
/-- State of Python's global random generator: an infinite stream of draws
and the position of the next draw. -/
structure Rng where
  stream : Nat → Nat
  pos : Nat

/-- Python `x[0:-trim]` on a list (`trim ≥ 0`): empty when `trim = 0`
because `-0 == 0`, otherwise everything but the last `trim` elements. -/
def pyToNeg (trim : Nat) (l : List α) : List α :=
  if trim = 0 then [] else l.take (l.length - trim)

/-- Python `x[-trim:]` on a list (`trim ≥ 0`): all of `x` when `trim = 0`
because `-0 == 0`, otherwise the last `trim` elements. -/
def pyFromNeg (trim : Nat) (l : List α) : List α :=
  if trim = 0 then l else l.drop (l.length - trim)

/-- Python `random.choices(population, k=k)`: `k` draws from the population
indexed by the generator's stream; consumes `k` positions of the state.
Modelled from the Python standard library (external to this repository). -/
def choices (population : List Int) (k : Nat) (r : Rng) : List Int × Rng :=
  ((List.range k).map (fun i => population.getD (r.stream (r.pos + i) % population.length) 0),
    ⟨r.stream, r.pos + k⟩)

/-- `QUALITY_MEDIUM = list(range(30, 41))`. -/
def QUALITY_MEDIUM : List Int := (List.range 11).map (fun i => (30 : Int) + i)

/-- `QUALITY_HIGH = list(range(39, 41))`. -/
def QUALITY_HIGH : List Int := (List.range 2).map (fun i => (39 : Int) + i)

/-- `riboviz.create_fastq_simdata.simulate_quality(k, qualities)`: a thin
wrapper around `random.choices` (the unused `weights=None` default is
omitted). -/
def simulate_quality (k : Nat) (qualities : List Int) (r : Rng) : List Int × Rng :=
  choices qualities k r

/-- A `Bio.SeqRecord.SeqRecord` as this module uses it: id, name and
description strings, the sequence, and the `phred_quality` letter
annotations. -/
structure SeqRecord where
  id : String
  name : String
  description : String
  seq : String
  phred_quality : List Int
deriving DecidableEq

/-- `riboviz.create_fastq_simdata.make_fastq_record(name, reads, scores,
qualities)`: a record named `name` with sequence `reads`; when `scores` is
`None` the quality scores are sampled by `simulate_quality`. -/
def make_fastq_record (name reads : String) (scores : Option (List Int))
    (qualities : List Int) (r : Rng) : SeqRecord × Rng :=
  match scores with
  | Option.none =>
      let sc := simulate_quality reads.length qualities r
      (⟨name, name, name, reads, sc.1⟩, sc.2)
  | some sc => (⟨name, name, name, reads, sc⟩, r)

/-- `riboviz.barcodes_umis.UMI_DELIMITER`.  Modelled from the spec: the
module `riboviz.barcodes_umis` is not part of these sources; the `"_"`
delimiter is fixed by the docstrings ("with a `_` delimiter") and by the
comments "using "_" delimiter for consistency with UMI-tools". -/
def UMI_DELIMITER : String := "_"

/-- `riboviz.barcodes_umis.BARCODE_DELIMITER`.  Modelled from the spec, as
for `UMI_DELIMITER`. -/
def BARCODE_DELIMITER : String := "_"

/-- A fixed generator state for calls of `make_fastq_record` that pass
explicit scores and therefore draw nothing. -/
def rng0 : Rng := ⟨fun _ => 0, 0⟩

/-- `riboviz.create_fastq_simdata.trim_fastq_record_3prime(record, trim,
add_trim, delimiter)`: copy the record with sequence and quality scores cut
to `sequence[0:-trim]` and `quality[0:-trim]`; when `add_trim`, append
`delimiter + sequence[-trim:]` to the id. -/
def trim_fastq_record_3prime (record : SeqRecord) (trim : Nat)
    (add_trim : Bool := false) (delimiter : String := UMI_DELIMITER) : SeqRecord :=
  let quality := record.phred_quality
  let sequence := record.seq
  let record_extension := if add_trim then delimiter ++ String.mk (pyFromNeg trim sequence.data) else ""
  (make_fastq_record (record.id ++ record_extension)
    (String.mk (pyToNeg trim sequence.data))
    (some (pyToNeg trim quality)) QUALITY_MEDIUM rng0).1

/-- `riboviz.create_fastq_simdata.trim_fastq_record_5prime(record, trim,
add_trim, delimiter)`: copy the record with sequence and quality scores cut
to `sequence[trim:]` and `quality[trim:]`; when `add_trim`, append
`delimiter + sequence[0:trim]` to the id. -/
def trim_fastq_record_5prime (record : SeqRecord) (trim : Nat)
    (add_trim : Bool := false) (delimiter : String := UMI_DELIMITER) : SeqRecord :=
  let quality := record.phred_quality
  let sequence := record.seq
  let record_extension := if add_trim then delimiter ++ String.mk (sequence.data.take trim) else ""
  (make_fastq_record (record.id ++ record_extension)
    (String.mk (sequence.data.drop trim))
    (some (quality.drop trim)) QUALITY_MEDIUM rng0).1

/-- `riboviz.create_fastq_simdata.make_fastq_records(tag, read, qualities,
umi5, umi3, barcode, adaptor, post_adaptor_nt)`: the full record, the
adaptor-trimmed record, and the barcode- and UMI-extracted record. -/
def make_fastq_records (tag read : String) (qualities : List Int)
    (umi5 : String := "") (umi3 : String := "") (barcode : String := "")
    (adaptor : String := "") (post_adaptor_nt : String := "")
    (r : Rng) : (SeqRecord × SeqRecord × SeqRecord) × Rng :=
  let sequence := umi5 ++ read ++ umi3 ++ barcode ++ adaptor ++ post_adaptor_nt
  let rec0 := make_fastq_record tag sequence Option.none qualities r
  let record := rec0.1
  let trim_record := trim_fastq_record_3prime record
    (adaptor.length + post_adaptor_nt.length)
  let barcode_ext_record :=
    if barcode ≠ "" then
      trim_fastq_record_3prime trim_record barcode.length true BARCODE_DELIMITER
    else trim_record
  let step5 :=
    if umi5 ≠ "" then
      (trim_fastq_record_5prime barcode_ext_record umi5.length true UMI_DELIMITER, "")
    else (barcode_ext_record, UMI_DELIMITER)
  let umi3_ext_record := trim_fastq_record_3prime step5.1 umi3.length true step5.2
  ((record, trim_record, umi3_ext_record), rec0.2)

end Simdata

namespace UpgradeConfig

/-!
`riboviz.upgrade_config`: configuration migration.

A YAML configuration dictionary is embedded as a function
`String → Option PyVal` (`Option.none` = key absent).  The parameter-name
constants the code imports from `riboviz.params` are written as string
literals; their values are fixed by this module's own docstring (the
renaming table and the default tables), except `params.COUNT_READS`, whose
spelling `"count_reads"` is modelled from the spec (the `riboviz.params`
module is not among these sources; no claim depends on that spelling).

`os.path.split` and `os.path.join` (POSIX flavour) are embedded over the
character lists of the path strings.  In-place mutation with exceptions is
embedded as `Except`: an error carries the dictionary as already modified
at the time the exception is raised.
-/
/-- A configuration dictionary: `Option.none` for an absent key. -/
abbrev Config := String → Option PyVal

/-- Python `config[key] = value`. -/
def dset (d : Config) (k : String) (v : PyVal) : Config :=
  fun q => if q = k then some v else d q

/-- Python `del config[key]`. -/
def ddel (d : Config) (k : String) : Config :=
  fun q => if q = k then Option.none else d q

/-- `os.path.split` (POSIX): split after the last `/`; the head keeps no
trailing slashes unless it is nothing but slashes. -/
def pathSplit (p : String) : String × String :=
  let cs := p.data
  let tl := (cs.reverse.takeWhile (fun c => c ≠ '/')).reverse
  let hd := cs.take (cs.length - tl.length)
  let hd2 := if hd.any (fun c => c ≠ '/') then (hd.reverse.dropWhile (fun c => c = '/')).reverse else hd
  (String.mk hd2, String.mk tl)

/-- `os.path.join` (POSIX) of two components: an absolute second component
replaces the path; otherwise they are joined with `/` unless the path is
empty or already ends in `/`. -/
def pathJoin2 (path b : String) : String :=
  if "/".data.isPrefixOf b.data then b
  else if path = "" || "/".data.isSuffixOf path.data then path ++ b
  else path ++ "/" ++ b

/-- `riboviz.upgrade_config.UPGRADES`: renamed configuration parameters,
old name to current name. -/
def UPGRADES : List (String × String) :=
  [("rRNA_fasta", "rrna_fasta_file"),
   ("orf_fasta", "orf_fasta_file"),
   ("rRNA_index", "rrna_index_prefix"),
   ("orf_index", "orf_index_prefix"),
   ("nprocesses", "num_processes"),
   ("MinReadLen", "min_read_length"),
   ("MaxReadLen", "max_read_length"),
   ("Buffer", "buffer"),
   ("PrimaryID", "primary_id"),
   ("SecondID", "secondary_id"),
   ("StopInCDS", "stop_in_cds"),
   ("isTestRun", "is_test_run"),
   ("ribovizGFF", "is_riboviz_gff"),
   ("t_rna", "t_rna_file"),
   ("codon_pos", "codon_positions_file")]

/-- `riboviz.upgrade_config.UPDATES_10_11`: parameters added between
releases 1.0.0 and 1.1.0, with default values. -/
def UPDATES_10_11 : List (String × PyVal) :=
  [("do_pos_sp_nt_freq", PyVal.bool true),
   ("features_file", PyVal.str "data/yeast_features.tsv")]

/-- `riboviz.upgrade_config.UPDATES_11_CURRENT`: parameters added between
release 1.1.0 and the current release, with default values. -/
def UPDATES_11_CURRENT : List (String × PyVal) :=
  [("dir_logs", PyVal.str "vignette/logs"),
   ("cmd_file", PyVal.str "run_riboviz_vignette.sh"),
   ("t_rna_file", PyVal.str "data/yeast_tRNAs.tsv"),
   ("codon_positions_file", PyVal.str "data/yeast_codon_pos_i200.RData"),
   ("count_threshold", PyVal.int 64),
   ("asite_disp_length_file", PyVal.str "data/yeast_standard_asite_disp_length.txt"),
   ("count_reads", PyVal.bool true)]

/-- One turn of the renaming loop: `if old_key in config: value =
config[old_key]; del config[old_key]; config[new_key] = value`. -/
def upgradeStep (d : Config) (p : String × String) : Config :=
  match d p.1 with
  | some v => dset (ddel d p.1) p.2 v
  | Option.none => d

/-- The whole renaming loop over `UPGRADES`. -/
def applyUpgrades (config : Config) : Config :=
  UPGRADES.foldl upgradeStep config

/-- One turn of a default-filling loop: `if key not in config: config[key]
= value`. -/
def updateStep (d : Config) (p : String × PyVal) : Config :=
  if (d p.1).isSome then d else dset d p.1 p.2

/-- A default-filling loop over a table of defaults. -/
def applyUpdates (updates : List (String × PyVal)) (config : Config) : Config :=
  updates.foldl updateStep config

/-- A Python exception as `upgrade_config` can raise it: `KeyError` from
`config[key]` on an absent key, `TypeError` from `os.path.split` on a
non-string value. -/
inductive UpErr where
  | keyError (k : String) : UpErr
  | typeError : UpErr

/-- One turn of the index-prefix loop: `prefix = os.path.split(config[key])[1];
config[key] = prefix`.  An error carries the dictionary as modified so far. -/
def indexStep (key : String) (d : Config) : Except (UpErr × Config) Config :=
  match d key with
  | Option.none => Except.error (UpErr.keyError key, d)
  | some (PyVal.str s) => Except.ok (dset d key (PyVal.str (pathSplit s).2))
  | some _ => Except.error (UpErr.typeError, d)

/-- The `features_file` relocation: replace `<PATH>/scripts/<file>` by
`<PATH>/data/<file>` via `os.path.split` and `os.path.join`. -/
def featuresStep (d : Config) : Except (UpErr × Config) Config :=
  match d "features_file" with
  | Option.none => Except.error (UpErr.keyError "features_file", d)
  | some (PyVal.str s) =>
      let features_dir_file := pathSplit s
      let features_super_dir := (pathSplit features_dir_file.1).1
      Except.ok (dset d "features_file"
        (PyVal.str (pathJoin2 (pathJoin2 features_super_dir "data") features_dir_file.2)))
  | some _ => Except.error (UpErr.typeError, d)

/-- The configuration after the renaming loop and the two default-filling
loops of `upgrade_config`, before the index-prefix and `features_file`
rewrites. -/
def upgradedDefaults (config : Config) : Config :=
  applyUpdates UPDATES_11_CURRENT (applyUpdates UPDATES_10_11 (applyUpgrades config))

/-- `riboviz.upgrade_config.upgrade_config(config)`: renames, defaults, the
index-prefix rewrite for `rrna_index_prefix` and `orf_index_prefix`, and the
`features_file` relocation, in the order the code performs them. -/
def upgrade_config (config : Config) : Except (UpErr × Config) Config :=
  Except.bind (indexStep "rrna_index_prefix" (upgradedDefaults config)) (fun d2 =>
    Except.bind (indexStep "orf_index_prefix" d2) (fun d3 =>
      featuresStep d3))

/-- The empty configuration, a concrete input for C10: the `KeyError` is
raised only after the defaults have already been filled in. -/
def cfgE : Config := fun _ => Option.none

/-- A concrete configuration for C3: index prefixes with directory parts, a
renamed `t_rna` key, and a `features_file` under `scripts/`. -/
def cfg0 : Config := fun k =>
  if k = "rRNA_index" then some (PyVal.str "vignette/index/yeast_rRNA")
  else if k = "orf_index" then some (PyVal.str "vignette/index/YAL_CDS_w_250")
  else if k = "t_rna" then some (PyVal.str "custom_trnas.tsv")
  else if k = "features_file" then some (PyVal.str "scripts/yeast_features.tsv")
  else Option.none

/-- The value a successful `upgrade_config` run leaves under a key. -/
def resultAt (c : Config) (k : String) : Option PyVal :=
  match upgrade_config c with
  | Except.ok d => d k
  | Except.error _ => Option.none

/-- An error escaping `upgrade_config_file`: the `assert` on the input path,
an error propagated from the YAML/file-I/O libraries (abstracted as a
string), or a Python built-in (`KeyError`/`TypeError`) propagated from
`upgrade_config`.  No custom exception type exists in the module. -/
inductive FileErr where
  | assertionError (msg : String) : FileErr
  | libError (e : String) : FileErr
  | upgradeError (e : UpErr) : FileErr

/-- `riboviz.upgrade_config.upgrade_config_file(input_file, output_file)`.
The file system and YAML loader are abstracted: `pathExists` and `isFile`
answer `os.path.exists`/`os.path.isfile`, and `readYaml` is the
`open`/`yaml.load` pipeline, returning a configuration or a library error.
The function asserts on the input path before any read; on success it
returns the write target (`output_file`, or `Option.none` for stdout) and
the upgraded configuration. -/
def upgrade_config_file (pathExists isFile : String → Bool)
    (readYaml : String → Except String Config)
    (input_file : String) (output_file : Option String) :
    Except FileErr (Option String × Config) :=
  if pathExists input_file && isFile input_file then
    match readYaml input_file with
    | Except.error e => Except.error (FileErr.libError e)
    | Except.ok config =>
        match upgrade_config config with
        | Except.error e => Except.error (FileErr.upgradeError e.1)
        | Except.ok cfg => Except.ok (output_file, cfg)
  else
    Except.error (FileErr.assertionError
      (input_file ++ " does not exist or is not a file"))

end UpgradeConfig

namespace CompareFilesTool

/-!
`riboviz.tools.compare_files`: a command-line pass-through to the external
equality check `riboviz.compare_files.compare_files`.  That check is not
among these sources (the spec calls the tool "a pass-through to an external
equality check"), so it is an abstract parameter: it either returns (the
files are equivalent) or raises (abstracted as a string error).  A Python
process exits with code 0 when the script returns and 1 when an exception
escapes, which is `exitCode`. -/
/-- The parsed command-line options of the tool: `-1 FILE1 -2 FILE2 [-n]`. -/
structure Options where
  file1 : String
  file2 : String
  names : Bool

/-- `riboviz.tools.compare_files.invoke_compare_files`, after command-line
parsing: call the external check on the two files and the names flag. -/
def invoke_compare_files (cmp : String → String → Bool → Except String Unit)
    (options : Options) : Except String Unit :=
  cmp options.file1 options.file2 options.names

/-- The exit code of the Python process: 0 on return, 1 on an uncaught
exception. -/
def exitCode : Except String Unit → Nat
  | Except.ok _ => 0
  | Except.error _ => 1

end CompareFilesTool

namespace Simdata

inductive FileContent where
  | fastq (records : List SeqRecord) : FileContent
  | tsv (rows : List (List String)) : FileContent
deriving DecidableEq

abbrev FileState := List (String × FileContent)

def fsLookup : FileState → String → Option FileContent
  | [], _ => Option.none
  | q :: fs, p => if q.1 = p then some q.2 else fsLookup fs p

def writeFastq : FileState → String → List SeqRecord → FileState
  | [], p, rs => [(p, FileContent.fastq rs)]
  | q :: fs, p, rs =>
      if q.1 = p then (p, FileContent.fastq rs) :: fs
      else q :: writeFastq fs p rs

def appendFastq : FileState → String → List SeqRecord → FileState
  | [], p, rs => [(p, FileContent.fastq rs)]
  | q :: fs, p, rs =>
      if q.1 = p then
        (p, match q.2 with
            | FileContent.fastq old => FileContent.fastq (old ++ rs)
            | c => c) :: fs
      else q :: appendFastq fs p rs

def writeTsv : FileState → String → List (List String) → FileState
  | [], p, rows => [(p, FileContent.tsv rows)]
  | q :: fs, p, rows =>
      if q.1 = p then (p, FileContent.tsv rows) :: fs
      else q :: writeTsv fs p rows

def removeFile : FileState → String → FileState
  | [], _ => []
  | q :: fs, src => if q.1 = src then fs else q :: removeFile fs src

def moveFile (fs : FileState) (src dst : String) : FileState :=
  match fsLookup fs src with
  | some c => removeFile fs src ++ [(dst, c)]
  | Option.none => fs

def pyEnumerate : Nat → List α → List (Nat × α)
  | _, [] => []
  | i, a :: as => (i, a) :: pyEnumerate (i + 1) as

def fastqFileName (s : String) : String := s ++ ".fastq"

def mapRng (f : α → Rng → β × Rng) : List α → Rng → List β × Rng
  | [], r => ([], r)
  | a :: as, r =>
      let br := f a r
      let rest := mapRng f as br.2
      (br.1 :: rest.1, rest.2)

def read_a : String := "ATGGCATCCACCGATTTCTCCAAGATTGAA"

def read_ae : String := "ATGGCATCCACCGATGTCTCCAAGATTGAA"

def read_b : String := "TCTAGATTAGAAAGATTGACCTCATTAA"

def umi_x : String := "CGTA"

def umi_y : String := "ATAT"

def umi_ye : String := "ATAA"

def umi_z : String := "CGGC"

def umi_ze : String := "CTGC"

def umi_5 : String := "AAAA"

def umi_5c : String := "CCCC"

def adaptor : String := "CTGTAGGCACC"

def post_adaptor_nt : String := "AC"

def config_5_3_adaptor : List (String × String × String × String × List Int) :=
  [("EWSim-1.1-umi5-reada-umix", umi_5, read_a, umi_x, QUALITY_HIGH),
   ("EWSim-1.2-umi5-reada-umix", umi_5, read_a, umi_x, QUALITY_MEDIUM),
   ("EWSim-1.3-umi5-readae-umix", umi_5, read_ae, umi_x, QUALITY_MEDIUM),
   ("EWSim-2.1-umi5-reada-umiy", umi_5, read_a, umi_y, QUALITY_MEDIUM)]

def config_5_3_post_adaptor_nt : List (String × String × String × String × List Int) :=
  [("EWSim-3.1-umi5-readb-umix", umi_5, read_b, umi_x, QUALITY_MEDIUM),
   ("EWSim-4.1-umi5-readb-umiz", umi_5, read_b, umi_z, QUALITY_HIGH),
   ("EWSim-4.2-umi5-readb-umiz", umi_5, read_b, umi_z, QUALITY_MEDIUM),
   ("EWSim-4.3-umi5-readb-umize", umi_5, read_b, umi_ze, QUALITY_MEDIUM),
   ("EWSim-5.1-umi5c-readb-umix", umi_5c, read_b, umi_x, QUALITY_MEDIUM)]

def config_3 : List (String × String × String × List Int) :=
  [("EWSim-1.1-reada-umix", read_a, umi_x, QUALITY_HIGH),
   ("EWSim-1.2-reada-umix", read_a, umi_x, QUALITY_MEDIUM),
   ("EWSim-1.3-readae-umix", read_ae, umi_x, QUALITY_MEDIUM),
   ("EWSim-2.1-reada-umiy", read_a, umi_y, QUALITY_MEDIUM),
   ("EWSim-3.1-readb-umix", read_b, umi_x, QUALITY_MEDIUM),
   ("EWSim-4.1-readb-umiz", read_b, umi_z, QUALITY_HIGH),
   ("EWSim-4.2-readb-umiz", read_b, umi_z, QUALITY_MEDIUM),
   ("EWSim-4.3-readb-umize", read_b, umi_ze, QUALITY_MEDIUM)]

def barcode_names : List String := ["ACG", "GAC", "CGA"]

def barcode_sets : List (List String) :=
  [["ACG", "GAC", "CGA", "TTT"],
   ["ACT", "GTC", "TGA"],
   ["TAG", "GTA", "CTT"]]

def tagPath (bi : Nat) : String :=
  "deplex/" ++ fastqFileName ("Tag" ++ toString bi)

/-- The record batch one turn of the multiplexing loop builds: the rows of
`config_5_3_adaptor` with the adaptor, then the rows of
`config_5_3_post_adaptor_nt` with the adaptor and the post-adaptor nt, all
tagged `-bar<barcode_index>.<mismatch_index>` and carrying the barcode. -/
def iterationRecords (mi bi : Nat) (b : String) (r : Rng) :
    List (SeqRecord × SeqRecord × SeqRecord) × Rng :=
  let bar_ext := "-bar" ++ toString bi ++ "." ++ toString mi
  let s1 := mapRng (fun c r => match c with
    | (tag, umi5, read, umi3, qualities) =>
        make_fastq_records (tag ++ bar_ext) read qualities umi5 umi3 b adaptor "" r)
    config_5_3_adaptor r
  let s2 := mapRng (fun c r => match c with
    | (tag, umi5, read, umi3, qualities) =>
        make_fastq_records (tag ++ bar_ext) read qualities umi5 umi3 b adaptor post_adaptor_nt r)
    config_5_3_post_adaptor_nt s1.2
  (s1.1 ++ s2.1, s2.2)

/-- The body of the multiplexing loop: build the records for one barcode,
count them against its barcode index, append the three record types to the
three multiplex files, and the extracted records to the barcode's deplex
file. -/
def multiplexIteration (st : FileState × List Nat × Rng) (mi bi : Nat)
    (b : String) : FileState × List Nat × Rng :=
  let recs := iterationRecords mi bi b st.2.2
  let counts := st.2.1.set bi (st.2.1.getD bi 0 + recs.1.length)
  let fs := appendFastq st.1 (fastqFileName "multiplex_umi_barcode_adaptor")
    (recs.1.map (fun t => t.1))
  let fs := appendFastq fs (fastqFileName "multiplex_umi_barcode")
    (recs.1.map (fun t => t.2.1))
  let fs := appendFastq fs (fastqFileName "multiplex")
    (recs.1.map (fun t => t.2.2))
  let fs := appendFastq fs (tagPath bi) (recs.1.map (fun t => t.2.2))
  (fs, counts, recs.2)

/-- `riboviz.create_fastq_simdata.create_fastq_simdata(output_dir)`: the
files written under the output directory. `mt` is the seeded stream the
standard library's generator would produce (abstract), `g0` the generator
state on entry; the state is consumed by the discarded `SRR` record and
then reset by `random.seed(42)`. -/
def create_fastq_simdata (mt : Nat → Nat → Nat) (g0 : Rng) : FileState :=
  let _pre := make_fastq_record "SRR" "AAAA" Option.none QUALITY_MEDIUM g0
  let r := Rng.mk (mt 42) 0
  let step1 := mapRng (fun c r => match c with
    | (tag, umi5, read, umi3, qualities) =>
        make_fastq_records tag read qualities umi5 umi3 "" adaptor "" r)
    config_5_3_adaptor r
  let step2 := mapRng (fun c r => match c with
    | (tag, umi5, read, umi3, qualities) =>
        make_fastq_records tag read qualities umi5 umi3 "" adaptor post_adaptor_nt r)
    config_5_3_post_adaptor_nt step1.2
  let records := step1.1 ++ step2.1
  let fs : FileState := []
  let fs := writeFastq fs (fastqFileName "umi5_umi3_umi_adaptor") (records.map (fun t => t.1))
  let fs := writeFastq fs (fastqFileName "umi5_umi3_umi") (records.map (fun t => t.2.1))
  let fs := writeFastq fs (fastqFileName "umi5_umi3") (records.map (fun t => t.2.2))
  let step3 := mapRng (fun c r => match c with
    | (tag, read, umi3, qualities) =>
        make_fastq_records tag read qualities "" umi3 "" adaptor "" r)
    config_3 step2.2
  let fs := writeFastq fs (fastqFileName "umi3_umi_adaptor") (step3.1.map (fun t => t.1))
  let fs := writeFastq fs (fastqFileName "umi3_umi") (step3.1.map (fun t => t.2.1))
  let fs := writeFastq fs (fastqFileName "umi3") (step3.1.map (fun t => t.2.2))
  let sample_rows := (pyEnumerate 0 barcode_names).map (fun ib => ["Tag" ++ toString ib.1, ib.2])
  let fs := writeTsv fs "multiplex_barcodes.tsv" ([["SampleID", "TagRead"]] ++ sample_rows)
  let loop := (pyEnumerate 0 barcode_sets).foldl (fun st mi_bcs =>
    (pyEnumerate 0 mi_bcs.2).foldl (fun st bi_bc =>
      multiplexIteration st mi_bcs.1 bi_bc.1 bi_bc.2) st)
    (fs, ([0, 0, 0, 0] : List Nat), step3.2)
  let fs := moveFile loop.1 (tagPath 3) ("deplex/" ++ fastqFileName "Unassigned")
  let counts := loop.2.1
  let num_unassigned := counts.getD 3 0
  let assigned := counts.take 3
  let rows := [["SampleID", "TagRead", "NumReads"]] ++
    ((sample_rows.zip assigned).map (fun rc => rc.1 ++ [toString rc.2])) ++
    [["Unassigned", toString num_unassigned]]
  writeTsv fs ("deplex/num_reads.tsv") rows

def countRecords (fs : FileState) (p : String) : Option Nat :=
  match fsLookup fs p with
  | some (FileContent.fastq rs) => some rs.length
  | _ => Option.none

def pathsUpsert : List String → String → List String
  | [], p => [p]
  | q :: ps, p => if q = p then q :: ps else q :: pathsUpsert ps p

def pathsRemove : List String → String → List String
  | [], _ => []
  | q :: ps, s => if q = s then ps else q :: pathsRemove ps s

end Simdata

namespace Utils

theorem pyIsNone_eq_false_iff (v : PyVal) : pyIsNone v = false ↔ v ≠ PyVal.none := by
  cases v <;> simp [pyIsNone]

/-- C9: `value_in_dict(key, dictionary, allow_false_empty)` returns `True`
iff the key is present, its value is not `None`, and either
`allow_false_empty` is set or the value is truthy (so falsy values such as
`False`, `""`, `[]`, `{}` yield `False` by default). -/
theorem value_in_dict_iff (key : String) (dictionary : List (String × PyVal))
    (allow_false_empty : Bool) :
    value_in_dict key dictionary allow_false_empty = true ↔
      ∃ v, dictLookup dictionary key = some v ∧ v ≠ PyVal.none ∧
        (allow_false_empty = true ∨ truthy v = true) := by
  cases h : dictLookup dictionary key with
  | none => cases allow_false_empty <;> simp [value_in_dict, h]
  | some v =>
    cases allow_false_empty <;>
      simp [value_in_dict, h, ← pyIsNone_eq_false_iff, Bool.not_eq_true']

end Utils

namespace Simdata

theorem string_mk_data (s : String) : String.mk s.data = s := rfl

/-- C1: the first record returned by `make_fastq_records` is named by the
tag and carries the concatenation `umi5 + read + umi3 + barcode + adaptor +
post_adaptor_nt` as its sequence, with one quality score per nucleotide
(the available quality scores being non-empty, as in every call the module
makes). -/
theorem make_fastq_records_full_record
    (tag read umi5 umi3 barcode adaptor post_adaptor_nt : String)
    (qualities : List Int) (r : Rng) (_hq : qualities ≠ []) :
    ((make_fastq_records tag read qualities umi5 umi3 barcode adaptor post_adaptor_nt r).1.1.name = tag) ∧
    ((make_fastq_records tag read qualities umi5 umi3 barcode adaptor post_adaptor_nt r).1.1.id = tag) ∧
    ((make_fastq_records tag read qualities umi5 umi3 barcode adaptor post_adaptor_nt r).1.1.seq
      = umi5 ++ read ++ umi3 ++ barcode ++ adaptor ++ post_adaptor_nt) ∧
    ((make_fastq_records tag read qualities umi5 umi3 barcode adaptor post_adaptor_nt r).1.1.phred_quality.length
      = (make_fastq_records tag read qualities umi5 umi3 barcode adaptor post_adaptor_nt r).1.1.seq.length) := by
  refine ⟨rfl, rfl, rfl, ?_⟩
  simp [make_fastq_records, make_fastq_record, simulate_quality, choices]

/-- Witness for C1 at a concrete input. -/
theorem make_fastq_records_full_record_witness :
    QUALITY_MEDIUM ≠ [] ∧
    ((make_fastq_records "EWSim-w" "ATGGCA" QUALITY_MEDIUM "AAAA" "CGTA" "ACG" "CTGTAGGCACC" "AC" rng0).1.1.name = "EWSim-w") ∧
    ((make_fastq_records "EWSim-w" "ATGGCA" QUALITY_MEDIUM "AAAA" "CGTA" "ACG" "CTGTAGGCACC" "AC" rng0).1.1.id = "EWSim-w") ∧
    ((make_fastq_records "EWSim-w" "ATGGCA" QUALITY_MEDIUM "AAAA" "CGTA" "ACG" "CTGTAGGCACC" "AC" rng0).1.1.seq
      = "AAAA" ++ "ATGGCA" ++ "CGTA" ++ "ACG" ++ "CTGTAGGCACC" ++ "AC") ∧
    ((make_fastq_records "EWSim-w" "ATGGCA" QUALITY_MEDIUM "AAAA" "CGTA" "ACG" "CTGTAGGCACC" "AC" rng0).1.1.phred_quality.length
      = (make_fastq_records "EWSim-w" "ATGGCA" QUALITY_MEDIUM "AAAA" "CGTA" "ACG" "CTGTAGGCACC" "AC" rng0).1.1.seq.length) :=
  ⟨by decide,
    make_fastq_records_full_record "EWSim-w" "ATGGCA" "AAAA" "CGTA" "ACG"
      "CTGTAGGCACC" "AC" QUALITY_MEDIUM rng0 (by decide)⟩

/-- C8: trimming zero nucleotides at the 3' end empties the record (Python's
`sequence[0:-0]` is the empty slice), while trimming zero nucleotides at the
5' end keeps the full sequence and quality scores. -/
theorem trim_zero_3prime_empty_5prime_full (record : SeqRecord)
    (add_trim : Bool) (delimiter : String) :
    ((trim_fastq_record_3prime record 0 add_trim delimiter).seq = "") ∧
    ((trim_fastq_record_3prime record 0 add_trim delimiter).phred_quality = []) ∧
    ((trim_fastq_record_5prime record 0 add_trim delimiter).seq = record.seq) ∧
    ((trim_fastq_record_5prime record 0 add_trim delimiter).phred_quality = record.phred_quality) := by
  refine ⟨?_, ?_, ?_, ?_⟩ <;>
    simp [trim_fastq_record_3prime, trim_fastq_record_5prime, make_fastq_record,
      pyToNeg, string_mk_data]

/-- C2 fails on the code: with `adaptor` and `post_adaptor_nt` both empty,
the second (adaptor-trimmed) record of `make_fastq_records` is emptied by
the `sequence[0:-0]` slice instead of equalling the first record, contrary
to the function's own docstring. -/
theorem make_fastq_records_empty_adaptor_divergence :
    ((make_fastq_records "EWSim" "ATG" QUALITY_MEDIUM "" "" "" "" "" rng0).1.1.seq = "ATG") ∧
    ((make_fastq_records "EWSim" "ATG" QUALITY_MEDIUM "" "" "" "" "" rng0).1.2.1.seq = "") ∧
    ((make_fastq_records "EWSim" "ATG" QUALITY_MEDIUM "" "" "" "" "" rng0).1.2.1.phred_quality = []) ∧
    ((make_fastq_records "EWSim" "ATG" QUALITY_MEDIUM "" "" "" "" "" rng0).1.2.1.seq
      ≠ (make_fastq_records "EWSim" "ATG" QUALITY_MEDIUM "" "" "" "" "" rng0).1.1.seq) := by
  decide

end Simdata

namespace UpgradeConfig

theorem except_bind_ok {ε α β : Type} (a : α) (f : α → Except ε β) :
    Except.bind (Except.ok a) f = f a := rfl

theorem except_bind_error {ε α β : Type} (e : ε) (f : α → Except ε β) :
    Except.bind (Except.error e) f = Except.error e := rfl

theorem dset_apply (d : Config) (k : String) (v : PyVal) (q : String) :
    dset d k v q = if q = k then some v else d q := rfl

theorem ddel_apply (d : Config) (k : String) (q : String) :
    ddel d k q = if q = k then Option.none else d q := rfl

theorem upgradeStep_apply (d : Config) (p : String × String) (q : String) :
    upgradeStep d p q =
      if q = p.2 ∧ (d p.1).isSome then d p.1
      else if q = p.1 then Option.none
      else d q := by
  rcases p with ⟨o, n⟩
  cases hdo : d o with
  | none =>
      simp only [upgradeStep, hdo, Option.isSome_none]
      rw [if_neg (by simp)]
      by_cases h2 : q = o
      · rw [if_pos h2, h2, hdo]
      · rw [if_neg h2]
  | some v =>
      simp only [upgradeStep, hdo, Option.isSome_some, and_true, dset_apply, ddel_apply]

theorem updateStep_apply (d : Config) (p : String × PyVal) (q : String) :
    updateStep d p q =
      if (d p.1).isSome then d q
      else if q = p.1 then some p.2
      else d q := by
  unfold updateStep
  split
  · rfl
  · rfl

theorem foldl_upgradeStep_notin (q : String) :
    ∀ (l : List (String × String)) (d : Config),
      (∀ p ∈ l, q ≠ p.1 ∧ q ≠ p.2) → l.foldl upgradeStep d q = d q := by
  intro l
  induction l with
  | nil => intro d _; rfl
  | cons p rest ih =>
      intro d h
      have hp := h p (List.mem_cons_self p rest)
      rw [List.foldl_cons, ih (upgradeStep d p) (fun x hx => h x (List.mem_cons_of_mem p hx)),
        upgradeStep_apply, if_neg (by simp [hp.2]), if_neg hp.1]

theorem foldl_updateStep_notin (q : String) :
    ∀ (l : List (String × PyVal)) (d : Config),
      (∀ p ∈ l, q ≠ p.1) → l.foldl updateStep d q = d q := by
  intro l
  induction l with
  | nil => intro d _; rfl
  | cons p rest ih =>
      intro d h
      have hp := h p (List.mem_cons_self p rest)
      rw [List.foldl_cons, ih (updateStep d p) (fun x hx => h x (List.mem_cons_of_mem p hx)),
        updateStep_apply, if_neg hp]
      exact ite_self _

theorem upgradeStep_ne (d : Config) (p : String × String) (q : String)
    (h1 : q ≠ p.1) (h2 : q ≠ p.2) : upgradeStep d p q = d q := by
  rw [upgradeStep_apply, if_neg (fun hc => h2 hc.1), if_neg h1]

theorem upgradeStep_old (d : Config) (p : String × String) (q : String)
    (h1 : q = p.1) (h2 : q ≠ p.2) : upgradeStep d p q = Option.none := by
  rw [upgradeStep_apply, if_neg (fun hc => h2 hc.1), if_pos h1]

theorem upgradeStep_new (d : Config) (p : String × String) (q : String)
    (h : q = p.2) :
    upgradeStep d p q =
      if (d p.1).isSome then d p.1 else if q = p.1 then Option.none else d q := by
  rw [upgradeStep_apply]
  by_cases hs : (d p.1).isSome
  · rw [if_pos ⟨h, hs⟩, if_pos hs]
  · rw [if_neg (fun hc => hs hc.2), if_neg hs]

theorem updateStep_ne (d : Config) (p : String × PyVal) (q : String)
    (h : q ≠ p.1) : updateStep d p q = d q := by
  rw [updateStep_apply, if_neg h]
  exact ite_self _

theorem updateStep_self (d : Config) (p : String × PyVal) (q : String)
    (h : q = p.1) :
    updateStep d p q = if (d q).isSome then d q else some p.2 := by
  rw [updateStep_apply, ← h, if_pos (rfl : q = q)]

theorem applyUpdates_notin (u : List (String × PyVal)) (c : Config) (q : String)
    (h : ∀ p ∈ u, q ≠ p.1) : applyUpdates u c q = c q :=
  foldl_updateStep_notin q u c h

theorem applyUpgrades_notin (c : Config) (q : String)
    (h : ∀ p ∈ UPGRADES, q ≠ p.1 ∧ q ≠ p.2) : applyUpgrades c q = c q :=
  foldl_upgradeStep_notin q UPGRADES c h

/-- C10: on a configuration missing both an index key and its renamed form,
`upgrade_config` raises `KeyError`, and the dictionary it leaves behind is
the one already transformed by the renaming and default-filling loops -
the operation is not atomic on error. -/
theorem upgrade_config_missing_index_key (config : Config) :
    (config "rRNA_index" = Option.none → config "rrna_index_prefix" = Option.none →
      upgrade_config config =
        Except.error (UpErr.keyError "rrna_index_prefix", upgradedDefaults config)) ∧
    (∀ s, config "rRNA_index" = Option.none →
      config "rrna_index_prefix" = some (PyVal.str s) →
      config "orf_index" = Option.none → config "orf_index_prefix" = Option.none →
      upgrade_config config =
        Except.error (UpErr.keyError "orf_index_prefix",
          dset (upgradedDefaults config) "rrna_index_prefix"
            (PyVal.str (pathSplit s).2))) := by
  constructor
  · intro h1 h2
    have hR : upgradedDefaults config "rrna_index_prefix" = Option.none := by
      simp [upgradedDefaults, applyUpdates, UPDATES_10_11, UPDATES_11_CURRENT,
        applyUpgrades, UPGRADES, upgradeStep_ne, upgradeStep_old, upgradeStep_new,
        updateStep_ne, updateStep_self, h1, h2]
    have eR : indexStep "rrna_index_prefix" (upgradedDefaults config) =
        Except.error (UpErr.keyError "rrna_index_prefix", upgradedDefaults config) := by
      unfold indexStep
      rw [hR]
    unfold upgrade_config
    rw [eR, except_bind_error]
  · intro s h1 h2 h3 h4
    have hR : upgradedDefaults config "rrna_index_prefix" = some (PyVal.str s) := by
      simp [upgradedDefaults, applyUpdates, UPDATES_10_11, UPDATES_11_CURRENT,
        applyUpgrades, UPGRADES, upgradeStep_ne, upgradeStep_old, upgradeStep_new,
        updateStep_ne, updateStep_self, h1, h2]
    have hO : upgradedDefaults config "orf_index_prefix" = Option.none := by
      simp [upgradedDefaults, applyUpdates, UPDATES_10_11, UPDATES_11_CURRENT,
        applyUpgrades, UPGRADES, upgradeStep_ne, upgradeStep_old, upgradeStep_new,
        updateStep_ne, updateStep_self, h3, h4]
    have hO2 : (dset (upgradedDefaults config) "rrna_index_prefix"
        (PyVal.str (pathSplit s).2)) "orf_index_prefix" = Option.none := by
      rw [dset_apply, if_neg (by decide)]
      exact hO
    have eR : indexStep "rrna_index_prefix" (upgradedDefaults config) =
        Except.ok (dset (upgradedDefaults config) "rrna_index_prefix"
          (PyVal.str (pathSplit s).2)) := by
      unfold indexStep
      rw [hR]
    have eO : indexStep "orf_index_prefix" (dset (upgradedDefaults config)
        "rrna_index_prefix" (PyVal.str (pathSplit s).2)) =
        Except.error (UpErr.keyError "orf_index_prefix",
          dset (upgradedDefaults config) "rrna_index_prefix"
            (PyVal.str (pathSplit s).2)) := by
      unfold indexStep
      rw [hO2]
    unfold upgrade_config
    rw [eR, except_bind_ok, eO, except_bind_error]

/-- Witness for C10: on the empty configuration the `KeyError` for
`rrna_index_prefix` is raised, and the dictionary at that point already
holds the `do_pos_sp_nt_freq` default - it has been modified. -/
theorem upgrade_config_missing_index_key_witness :
    (upgrade_config cfgE =
      Except.error (UpErr.keyError "rrna_index_prefix", upgradedDefaults cfgE)) ∧
    upgradedDefaults cfgE "do_pos_sp_nt_freq" ≠ cfgE "do_pos_sp_nt_freq" := by
  refine ⟨(upgrade_config_missing_index_key cfgE).1 rfl rfl, ?_⟩
  intro h
  rw [show upgradedDefaults cfgE "do_pos_sp_nt_freq" = some (PyVal.bool true) from rfl] at h
  exact Option.noConfusion h

/-- C3 as stated fails on the code: on `cfg0`, the value moved from
`rRNA_index` to `rrna_index_prefix` is not stored unchanged (it is cut to
its final path component); `t_rna_file`, though absent from the input, does
not receive its default (the renamed `t_rna` value pre-empts it); and the
`features_file` value is changed from `scripts/...` to `data/...`. -/
theorem upgrade_config_flat_rules_counterexample :
    (cfg0 "rRNA_index" = some (PyVal.str "vignette/index/yeast_rRNA")) ∧
    (resultAt cfg0 "rrna_index_prefix" = some (PyVal.str "yeast_rRNA")) ∧
    resultAt cfg0 "rrna_index_prefix" ≠ cfg0 "rRNA_index" ∧
    (cfg0 "t_rna_file" = Option.none) ∧
    (resultAt cfg0 "t_rna_file" = some (PyVal.str "custom_trnas.tsv")) ∧
    resultAt cfg0 "t_rna_file" ≠ some (PyVal.str "data/yeast_tRNAs.tsv") ∧
    (cfg0 "features_file" = some (PyVal.str "scripts/yeast_features.tsv")) ∧
    (resultAt cfg0 "features_file" = some (PyVal.str "data/yeast_features.tsv")) ∧
    resultAt cfg0 "features_file" ≠ cfg0 "features_file" := by
  refine ⟨rfl, rfl, ?_, rfl, rfl, ?_, rfl, rfl, ?_⟩
  · rw [show resultAt cfg0 "rrna_index_prefix" = some (PyVal.str "yeast_rRNA") from rfl,
      show cfg0 "rRNA_index" = some (PyVal.str "vignette/index/yeast_rRNA") from rfl]
    simp
  · rw [show resultAt cfg0 "t_rna_file" = some (PyVal.str "custom_trnas.tsv") from rfl]
    simp
  · rw [show resultAt cfg0 "features_file" = some (PyVal.str "data/yeast_features.tsv") from rfl,
      show cfg0 "features_file" = some (PyVal.str "scripts/yeast_features.tsv") from rfl]
    simp

/-- C3 amended: the renaming and default-filling rules hold as claimed
except that the two index-prefix values are cut to their final path
component, defaults apply to keys still absent after renaming, and the
`features_file` value is relocated to `data/`; every other key is
untouched. -/
theorem upgrade_config_characterization (config : Config) (pr po pf : String)
    (hpr : applyUpgrades config "rrna_index_prefix" = some (PyVal.str pr))
    (hpo : applyUpgrades config "orf_index_prefix" = some (PyVal.str po))
    (hpf : applyUpdates UPDATES_10_11 (applyUpgrades config) "features_file"
      = some (PyVal.str pf)) :
    ∃ f, upgrade_config config = Except.ok f ∧
      (∀ p ∈ UPGRADES, f p.1 = Option.none) ∧
      (∀ p ∈ UPGRADES, p.2 ≠ "rrna_index_prefix" → p.2 ≠ "orf_index_prefix" →
        ∀ v, config p.1 = some v → f p.2 = some v) ∧
      (∀ p ∈ UPDATES_10_11 ++ UPDATES_11_CURRENT,
        applyUpgrades config p.1 = Option.none → f p.1 = some p.2) ∧
      f "rrna_index_prefix" = some (PyVal.str (pathSplit pr).2) ∧
      f "orf_index_prefix" = some (PyVal.str (pathSplit po).2) ∧
      f "features_file" = some (PyVal.str
        (pathJoin2 (pathJoin2 (pathSplit (pathSplit pf).1).1 "data") (pathSplit pf).2)) ∧
      (∀ k, (∀ p ∈ UPGRADES, k ≠ p.1 ∧ k ≠ p.2) →
        (∀ p ∈ UPDATES_10_11 ++ UPDATES_11_CURRENT, k ≠ p.1) → f k = config k) := by
  have hmidR : upgradedDefaults config "rrna_index_prefix" = some (PyVal.str pr) := by
    unfold upgradedDefaults
    rw [applyUpdates_notin UPDATES_11_CURRENT _ "rrna_index_prefix" (by decide),
      applyUpdates_notin UPDATES_10_11 _ "rrna_index_prefix" (by decide)]
    exact hpr
  have hmidO : upgradedDefaults config "orf_index_prefix" = some (PyVal.str po) := by
    unfold upgradedDefaults
    rw [applyUpdates_notin UPDATES_11_CURRENT _ "orf_index_prefix" (by decide),
      applyUpdates_notin UPDATES_10_11 _ "orf_index_prefix" (by decide)]
    exact hpo
  have hmidF : upgradedDefaults config "features_file" = some (PyVal.str pf) := by
    unfold upgradedDefaults
    rw [applyUpdates_notin UPDATES_11_CURRENT _ "features_file" (by decide)]
    exact hpf
  refine ⟨dset (dset (dset (upgradedDefaults config)
      "rrna_index_prefix" (PyVal.str (pathSplit pr).2))
      "orf_index_prefix" (PyVal.str (pathSplit po).2))
      "features_file" (PyVal.str
        (pathJoin2 (pathJoin2 (pathSplit (pathSplit pf).1).1 "data") (pathSplit pf).2)),
    ?_, ?_, ?_, ?_, ?_, ?_, ?_, ?_⟩
  · -- the run succeeds and produces exactly this dictionary
    have h2 : (dset (upgradedDefaults config) "rrna_index_prefix"
        (PyVal.str (pathSplit pr).2)) "orf_index_prefix" = some (PyVal.str po) := by
      rw [dset_apply, if_neg (by decide)]
      exact hmidO
    have h3 : (dset (dset (upgradedDefaults config) "rrna_index_prefix"
        (PyVal.str (pathSplit pr).2)) "orf_index_prefix"
        (PyVal.str (pathSplit po).2)) "features_file" = some (PyVal.str pf) := by
      rw [dset_apply, if_neg (by decide), dset_apply, if_neg (by decide)]
      exact hmidF
    have e1 : indexStep "rrna_index_prefix" (upgradedDefaults config) =
        Except.ok (dset (upgradedDefaults config) "rrna_index_prefix"
          (PyVal.str (pathSplit pr).2)) := by
      unfold indexStep
      rw [hmidR]
    have e2 : indexStep "orf_index_prefix" (dset (upgradedDefaults config)
        "rrna_index_prefix" (PyVal.str (pathSplit pr).2)) =
        Except.ok (dset (dset (upgradedDefaults config) "rrna_index_prefix"
          (PyVal.str (pathSplit pr).2)) "orf_index_prefix"
          (PyVal.str (pathSplit po).2)) := by
      unfold indexStep
      rw [h2]
    have e3 : featuresStep (dset (dset (upgradedDefaults config) "rrna_index_prefix"
        (PyVal.str (pathSplit pr).2)) "orf_index_prefix"
        (PyVal.str (pathSplit po).2)) =
        Except.ok (dset (dset (dset (upgradedDefaults config)
          "rrna_index_prefix" (PyVal.str (pathSplit pr).2))
          "orf_index_prefix" (PyVal.str (pathSplit po).2))
          "features_file" (PyVal.str
            (pathJoin2 (pathJoin2 (pathSplit (pathSplit pf).1).1 "data") (pathSplit pf).2))) := by
      unfold featuresStep
      rw [h3]
    unfold upgrade_config
    rw [e1, except_bind_ok]
    rw [e2, except_bind_ok]
    rw [e3]
  · -- old keys are gone
    intro p hp
    fin_cases hp <;>
      (simp only [dset_apply]
       rw [if_neg (by decide), if_neg (by decide), if_neg (by decide)]
       unfold upgradedDefaults applyUpdates applyUpgrades
       simp only [UPDATES_11_CURRENT, UPDATES_10_11, UPGRADES, List.foldl_cons, List.foldl_nil]
       repeat rw [updateStep_ne _ _ _ (by decide)]
       repeat rw [upgradeStep_ne _ _ _ (by decide) (by decide)]
       rw [upgradeStep_old _ _ _ rfl (by decide)])
  · -- renamed values are stored unchanged, except for the two index prefixes
    intro p hp
    fin_cases hp <;>
      (intro hn1 hn2 v hv
       first
       | exact absurd rfl hn1
       | exact absurd rfl hn2
       | (simp only [dset_apply]
          rw [if_neg (by decide), if_neg (by decide), if_neg (by decide)]
          unfold upgradedDefaults applyUpdates applyUpgrades
          simp only [UPDATES_11_CURRENT, UPDATES_10_11, UPGRADES, List.foldl_cons, List.foldl_nil]
          repeat rw [updateStep_ne _ _ _ (by decide)]
          first
          | rw [updateStep_self _ _ _ rfl]
          | skip
          repeat rw [updateStep_ne _ _ _ (by decide)]
          repeat rw [upgradeStep_ne _ _ _ (by decide) (by decide)]
          rw [upgradeStep_new _ _ _ rfl]
          repeat rw [upgradeStep_ne _ _ _ (by decide) (by decide)]
          rw [hv]
          simp))
  · -- defaults fill keys still absent after the renaming
    intro p hp
    fin_cases hp
    · -- do_pos_sp_nt_freq
      intro hup
      simp only [dset_apply]
      rw [if_neg (by decide), if_neg (by decide), if_neg (by decide)]
      unfold upgradedDefaults applyUpdates
      simp only [UPDATES_11_CURRENT, UPDATES_10_11, List.foldl_cons, List.foldl_nil]
      repeat rw [updateStep_ne _ _ _ (by decide)]
      rw [updateStep_self _ _ _ rfl]
      rw [hup]
      simp
    · -- features_file: the default value is itself fixed by the relocation
      intro hup
      have hpf2 : some (PyVal.str "data/yeast_features.tsv") = some (PyVal.str pf) := by
        rw [← hpf]
        unfold applyUpdates
        simp only [UPDATES_10_11, List.foldl_cons, List.foldl_nil]
        rw [updateStep_self _ _ _ rfl, updateStep_ne _ _ _ (by decide), hup]
        simp
      have hpf3 : pf = "data/yeast_features.tsv" := by
        injection hpf2 with h'
        injection h' with h''
        exact h''.symm
      subst hpf3
      rw [dset_apply, if_pos rfl]
      rfl
    all_goals
      (intro hup
       simp only [dset_apply]
       rw [if_neg (by decide), if_neg (by decide), if_neg (by decide)]
       unfold upgradedDefaults applyUpdates
       simp only [UPDATES_11_CURRENT, UPDATES_10_11, List.foldl_cons, List.foldl_nil]
       repeat rw [updateStep_ne _ _ _ (by decide)]
       rw [updateStep_self _ _ _ rfl]
       repeat rw [updateStep_ne _ _ _ (by decide)]
       rw [hup]
       simp)
  · rw [dset_apply, if_neg (by decide), dset_apply, if_neg (by decide),
      dset_apply, if_pos rfl]
  · rw [dset_apply, if_neg (by decide), dset_apply, if_pos rfl]
  · rw [dset_apply, if_pos rfl]
  · -- every other key is untouched
    intro k hk1 hk2
    have hF : k ≠ "features_file" :=
      hk2 ("features_file", PyVal.str "data/yeast_features.tsv")
        (List.mem_append_left _ (by simp [UPDATES_10_11]))
    have hR : k ≠ "rrna_index_prefix" :=
      (hk1 ("rRNA_index", "rrna_index_prefix") (by decide)).2
    have hO : k ≠ "orf_index_prefix" :=
      (hk1 ("orf_index", "orf_index_prefix") (by decide)).2
    rw [dset_apply, if_neg hF, dset_apply, if_neg hO, dset_apply, if_neg hR]
    unfold upgradedDefaults
    rw [applyUpdates_notin UPDATES_11_CURRENT _ k
        (fun p hp => hk2 p (List.mem_append_right _ hp)),
      applyUpdates_notin UPDATES_10_11 _ k
        (fun p hp => hk2 p (List.mem_append_left _ hp)),
      applyUpgrades_notin config k hk1]

/-- Witness for C3 at the concrete configuration `cfg0`. -/
theorem upgrade_config_characterization_witness :
    (match upgrade_config cfg0 with
     | Except.ok f => f "rrna_index_prefix"
     | Except.error _ => Option.none) = some (PyVal.str "yeast_rRNA") := by
  obtain ⟨f, hok, -, -, -, hr, -, -, -⟩ :=
    upgrade_config_characterization cfg0 "vignette/index/yeast_rRNA"
      "vignette/index/YAL_CDS_w_250" "scripts/yeast_features.tsv" rfl rfl rfl
  rw [hok]
  exact hr

/-- C6: `upgrade_config_file` raises `AssertionError` exactly when the input
path is not an existing regular file - whatever the reader would return, so
before any file is read - and every other failure is a propagated library
or built-in error, with no custom error type. -/
theorem upgrade_config_file_assertion (pathExists isFile : String → Bool)
    (readYaml : String → Except String Config)
    (input_file : String) (output_file : Option String) :
    ((∃ m, upgrade_config_file pathExists isFile readYaml input_file output_file =
        Except.error (FileErr.assertionError m)) ↔
      ¬(pathExists input_file = true ∧ isFile input_file = true)) ∧
    (∀ e, pathExists input_file = true → isFile input_file = true →
      readYaml input_file = Except.error e →
      upgrade_config_file pathExists isFile readYaml input_file output_file =
        Except.error (FileErr.libError e)) ∧
    (∀ cfg err d, pathExists input_file = true → isFile input_file = true →
      readYaml input_file = Except.ok cfg →
      upgrade_config cfg = Except.error (err, d) →
      upgrade_config_file pathExists isFile readYaml input_file output_file =
        Except.error (FileErr.upgradeError err)) ∧
    (∀ cfg cfg2, pathExists input_file = true → isFile input_file = true →
      readYaml input_file = Except.ok cfg →
      upgrade_config cfg = Except.ok cfg2 →
      upgrade_config_file pathExists isFile readYaml input_file output_file =
        Except.ok (output_file, cfg2)) := by
  refine ⟨⟨?_, ?_⟩, ?_, ?_, ?_⟩
  · rintro ⟨m, hm⟩ hboth
    rw [upgrade_config_file, if_pos (by rw [hboth.1, hboth.2]; rfl)] at hm
    cases hry : readYaml input_file with
    | error e => simp [hry] at hm
    | ok cfg =>
        cases hu : upgrade_config cfg with
        | error e => simp [hry, hu] at hm
        | ok cfg2 => simp [hry, hu] at hm
  · intro h
    refine ⟨input_file ++ " does not exist or is not a file", ?_⟩
    rw [upgrade_config_file, if_neg (fun hc => h (by simpa using hc))]
  · intro e hpe hif hry
    rw [upgrade_config_file, if_pos (by rw [hpe, hif]; rfl)]
    simp [hry]
  · intro cfg err d hpe hif hry hu
    rw [upgrade_config_file, if_pos (by rw [hpe, hif]; rfl)]
    simp [hry, hu]
  · intro cfg cfg2 hpe hif hry hu
    rw [upgrade_config_file, if_pos (by rw [hpe, hif]; rfl)]
    simp [hry, hu]

end UpgradeConfig

namespace CompareFilesTool

/-- C7: the tool performs no comparison itself - its result is exactly the
external check's result - and it exits 0 exactly when the check does not
raise, propagating the check's exception (exit code 1) otherwise. -/
theorem invoke_compare_files_passthrough
    (cmp : String → String → Bool → Except String Unit) (options : Options) :
    invoke_compare_files cmp options = cmp options.file1 options.file2 options.names ∧
    (exitCode (invoke_compare_files cmp options) = 0 ↔
      cmp options.file1 options.file2 options.names = Except.ok ()) ∧
    (∀ e, cmp options.file1 options.file2 options.names = Except.error e →
      invoke_compare_files cmp options = Except.error e ∧
      exitCode (invoke_compare_files cmp options) = 1) := by
  refine ⟨rfl, ?_, ?_⟩
  · cases h : cmp options.file1 options.file2 options.names with
    | ok u => cases u; simp [invoke_compare_files, exitCode, h]
    | error e => simp [invoke_compare_files, exitCode, h]
  · intro e he
    exact ⟨by rw [invoke_compare_files, he], by rw [invoke_compare_files, he]; rfl⟩

end CompareFilesTool

namespace Simdata

theorem map_fst_writeFastq (fs : FileState) (p : String) (rs : List SeqRecord) :
    (writeFastq fs p rs).map (fun q => q.1) =
      pathsUpsert (fs.map (fun q => q.1)) p := by
  induction fs with
  | nil => rfl
  | cons q fs ih =>
      by_cases h : q.1 = p
      · simp [writeFastq, pathsUpsert, h]
      · simp [writeFastq, pathsUpsert, h, ih]

theorem map_fst_appendFastq (fs : FileState) (p : String) (rs : List SeqRecord) :
    (appendFastq fs p rs).map (fun q => q.1) =
      pathsUpsert (fs.map (fun q => q.1)) p := by
  induction fs with
  | nil => rfl
  | cons q fs ih =>
      by_cases h : q.1 = p
      · simp [appendFastq, pathsUpsert, h]
      · simp [appendFastq, pathsUpsert, h, ih]

theorem map_fst_writeTsv (fs : FileState) (p : String) (rows : List (List String)) :
    (writeTsv fs p rows).map (fun q => q.1) =
      pathsUpsert (fs.map (fun q => q.1)) p := by
  induction fs with
  | nil => rfl
  | cons q fs ih =>
      by_cases h : q.1 = p
      · simp [writeTsv, pathsUpsert, h]
      · simp [writeTsv, pathsUpsert, h, ih]

theorem map_fst_removeFile (fs : FileState) (s : String) :
    (removeFile fs s).map (fun q => q.1) =
      pathsRemove (fs.map (fun q => q.1)) s := by
  induction fs with
  | nil => rfl
  | cons q fs ih =>
      by_cases h : q.1 = s
      · simp [removeFile, pathsRemove, h]
      · simp [removeFile, pathsRemove, h, ih]

theorem fsLookup_nil (p : String) : fsLookup [] p = Option.none := rfl

theorem fsLookup_singleton (p p2 : String) (c : FileContent) :
    fsLookup [(p, c)] p2 = if p = p2 then some c else Option.none := by
  simp [fsLookup]

theorem fsLookup_writeFastq_self (fs : FileState) (p : String) (rs : List SeqRecord) :
    fsLookup (writeFastq fs p rs) p = some (FileContent.fastq rs) := by
  induction fs with
  | nil => simp [writeFastq, fsLookup]
  | cons q fs ih =>
      by_cases h : q.1 = p
      · simp [writeFastq, fsLookup, h]
      · simp [writeFastq, fsLookup, h, ih]

theorem fsLookup_writeFastq_ne (fs : FileState) (p : String) (rs : List SeqRecord)
    (p2 : String) (h : ¬p = p2) :
    fsLookup (writeFastq fs p rs) p2 = fsLookup fs p2 := by
  induction fs with
  | nil => simp [writeFastq, fsLookup, h]
  | cons q fs ih =>
      by_cases h2 : q.1 = p
      · simp [writeFastq, fsLookup, h2, h]
      · simp [writeFastq, fsLookup, h2, ih]

theorem fsLookup_writeTsv_self (fs : FileState) (p : String) (rows : List (List String)) :
    fsLookup (writeTsv fs p rows) p = some (FileContent.tsv rows) := by
  induction fs with
  | nil => simp [writeTsv, fsLookup]
  | cons q fs ih =>
      by_cases h : q.1 = p
      · simp [writeTsv, fsLookup, h]
      · simp [writeTsv, fsLookup, h, ih]

theorem fsLookup_writeTsv_ne (fs : FileState) (p : String) (rows : List (List String))
    (p2 : String) (h : ¬p = p2) :
    fsLookup (writeTsv fs p rows) p2 = fsLookup fs p2 := by
  induction fs with
  | nil => simp [writeTsv, fsLookup, h]
  | cons q fs ih =>
      by_cases h2 : q.1 = p
      · simp [writeTsv, fsLookup, h2, h]
      · simp [writeTsv, fsLookup, h2, ih]

theorem fsLookup_appendFastq_self (fs : FileState) (p : String) (rs : List SeqRecord) :
    fsLookup (appendFastq fs p rs) p =
      some (match fsLookup fs p with
            | some (FileContent.fastq old) => FileContent.fastq (old ++ rs)
            | some c => c
            | Option.none => FileContent.fastq rs) := by
  induction fs with
  | nil => simp [appendFastq, fsLookup]
  | cons q fs ih =>
      by_cases h : q.1 = p
      · cases hq : q.2 <;> simp [appendFastq, fsLookup, h, hq]
      · simp [appendFastq, fsLookup, h, ih]

theorem fsLookup_appendFastq_ne (fs : FileState) (p : String) (rs : List SeqRecord)
    (p2 : String) (h : ¬p = p2) :
    fsLookup (appendFastq fs p rs) p2 = fsLookup fs p2 := by
  induction fs with
  | nil => simp [appendFastq, fsLookup, h]
  | cons q fs ih =>
      by_cases h2 : q.1 = p
      · simp [appendFastq, fsLookup, h2, h]
      · simp [appendFastq, fsLookup, h2, ih]

theorem fsLookup_appendFastq_isSome (fs : FileState) (p : String) (rs : List SeqRecord) :
    (fsLookup (appendFastq fs p rs) p).isSome = true := by
  rw [fsLookup_appendFastq_self]
  rfl

theorem fsLookup_append (fs1 fs2 : FileState) (p : String) :
    fsLookup (fs1 ++ fs2) p =
      match fsLookup fs1 p with
      | some c => some c
      | Option.none => fsLookup fs2 p := by
  induction fs1 with
  | nil => simp [fsLookup]
  | cons q fs ih =>
      by_cases h : q.1 = p
      · simp [fsLookup, h]
      · simp [fsLookup, h, ih]

theorem fsLookup_removeFile (fs : FileState) (s p2 : String) (h : ¬p2 = s) :
    fsLookup (removeFile fs s) p2 = fsLookup fs p2 := by
  induction fs with
  | nil => rfl
  | cons q fs ih =>
      by_cases h2 : q.1 = s
      · simp [removeFile, fsLookup, h, h2,
          (show ¬s = p2 from fun hc => h hc.symm),
          (show ¬q.1 = p2 from fun hc => h (hc.symm.trans h2))]
      · by_cases h3 : q.1 = p2
        · simp [removeFile, fsLookup, h, h2, h3]
        · simp [removeFile, fsLookup, h, h2, h3, ih]

theorem moveFile_of_isSome (fs : FileState) (src dst : String)
    (h : (fsLookup fs src).isSome = true) :
    moveFile fs src dst =
      removeFile fs src ++ [(dst, (fsLookup fs src).getD (FileContent.fastq []))] := by
  unfold moveFile
  cases hs : fsLookup fs src with
  | none => rw [hs] at h; exact Bool.noConfusion h
  | some c => simp [hs]

theorem map_fst_moveFile_isSome (fs : FileState) (src dst : String)
    (h : (fsLookup fs src).isSome = true) :
    (moveFile fs src dst).map (fun q => q.1) =
      pathsRemove (fs.map (fun q => q.1)) src ++ [dst] := by
  rw [moveFile_of_isSome fs src dst h]
  simp [map_fst_removeFile]

theorem mapRng_length (f : α → Rng → β × Rng) (l : List α) (r : Rng) :
    (mapRng f l r).1.length = l.length := by
  induction l generalizing r with
  | nil => rfl
  | cons a as ih => simp [mapRng, ih]

attribute [irreducible] fsLookup writeFastq appendFastq writeTsv removeFile moveFile

theorem iterationRecords_length (mi bi : Nat) (b : String) (r : Rng) :
    (iterationRecords mi bi b r).1.length = 9 := by
  simp [iterationRecords, mapRng_length, config_5_3_adaptor, config_5_3_post_adaptor_nt]

theorem tp0 : tagPath 0 = "deplex/Tag0.fastq" := rfl

theorem tp1 : tagPath 1 = "deplex/Tag1.fastq" := rfl

theorem tp2 : tagPath 2 = "deplex/Tag2.fastq" := rfl

theorem tp3 : tagPath 3 = "deplex/Tag3.fastq" := rfl

theorem iter_map_fst (st : FileState × List Nat × Rng) (mi bi : Nat) (b : String) :
    (multiplexIteration st mi bi b).1.map (fun q => q.1) =
      pathsUpsert (pathsUpsert (pathsUpsert (pathsUpsert
        (st.1.map (fun q => q.1))
        "multiplex_umi_barcode_adaptor.fastq")
        "multiplex_umi_barcode.fastq")
        "multiplex.fastq") (tagPath bi) := by
  simp [multiplexIteration, fastqFileName, map_fst_appendFastq]

theorem iter_counts (st : FileState × List Nat × Rng) (mi bi : Nat) (b : String) :
    (multiplexIteration st mi bi b).2.1 =
      st.2.1.set bi (st.2.1.getD bi 0 + 9) := by
  simp [multiplexIteration, iterationRecords_length]

theorem iter_lookup_ne (st : FileState × List Nat × Rng) (mi bi : Nat) (b : String)
    (P : String)
    (h1 : ¬"multiplex_umi_barcode_adaptor.fastq" = P)
    (h2 : ¬"multiplex_umi_barcode.fastq" = P)
    (h3 : ¬"multiplex.fastq" = P)
    (h4 : ¬tagPath bi = P) :
    fsLookup (multiplexIteration st mi bi b).1 P = fsLookup st.1 P := by
  simp only [multiplexIteration, fastqFileName]
  rw [fsLookup_appendFastq_ne _ _ _ _ h4,
    fsLookup_appendFastq_ne _ _ _ _ (by simpa using h3),
    fsLookup_appendFastq_ne _ _ _ _ (by simpa using h2),
    fsLookup_appendFastq_ne _ _ _ _ (by simpa using h1)]

theorem iter_lookup_tag (st : FileState × List Nat × Rng) (mi bi : Nat) (b : String)
    (h1 : ¬"multiplex_umi_barcode_adaptor.fastq" = tagPath bi)
    (h2 : ¬"multiplex_umi_barcode.fastq" = tagPath bi)
    (h3 : ¬"multiplex.fastq" = tagPath bi) :
    fsLookup (multiplexIteration st mi bi b).1 (tagPath bi) =
      some (match fsLookup st.1 (tagPath bi) with
            | some (FileContent.fastq old) =>
                FileContent.fastq (old ++
                  (iterationRecords mi bi b st.2.2).1.map (fun t => t.2.2))
            | some c => c
            | Option.none =>
                FileContent.fastq
                  ((iterationRecords mi bi b st.2.2).1.map (fun t => t.2.2))) := by
  simp only [multiplexIteration, fastqFileName]
  rw [fsLookup_appendFastq_self,
    fsLookup_appendFastq_ne _ _ _ _ (by simpa using h3),
    fsLookup_appendFastq_ne _ _ _ _ (by simpa using h2),
    fsLookup_appendFastq_ne _ _ _ _ (by simpa using h1)]

theorem iter_lookup_tag_isSome (st : FileState × List Nat × Rng) (mi bi : Nat)
    (b : String)
    (h1 : ¬"multiplex_umi_barcode_adaptor.fastq" = tagPath bi)
    (h2 : ¬"multiplex_umi_barcode.fastq" = tagPath bi)
    (h3 : ¬"multiplex.fastq" = tagPath bi) :
    (fsLookup (multiplexIteration st mi bi b).1 (tagPath bi)).isSome = true := by
  rw [iter_lookup_tag st mi bi b h1 h2 h3]
  rfl

theorem iter_lookup_multiplex (st : FileState × List Nat × Rng) (mi bi : Nat)
    (b : String) (h : ¬tagPath bi = "multiplex.fastq") :
    fsLookup (multiplexIteration st mi bi b).1 "multiplex.fastq" =
      some (match fsLookup st.1 "multiplex.fastq" with
            | some (FileContent.fastq old) =>
                FileContent.fastq (old ++
                  (iterationRecords mi bi b st.2.2).1.map (fun t => t.2.2))
            | some c => c
            | Option.none =>
                FileContent.fastq
                  ((iterationRecords mi bi b st.2.2).1.map (fun t => t.2.2))) := by
  simp only [multiplexIteration, fastqFileName]
  rw [fsLookup_appendFastq_ne _ _ _ _ h]
  rw [show ("multiplex" ++ ".fastq") = "multiplex.fastq" from rfl,
    fsLookup_appendFastq_self,
    fsLookup_appendFastq_ne _ _ _ _ (by decide),
    fsLookup_appendFastq_ne _ _ _ _ (by decide)]

/-- C4: `create_fastq_simdata` is deterministic: the generator state on
entry is consumed only by the discarded `SRR` record before `random.seed(42)`
resets it, so two runs with the same seeded stream produce identical files. -/
theorem create_fastq_simdata_deterministic (mt : Nat → Nat → Nat) (g g2 : Rng) :
    create_fastq_simdata mt g = create_fastq_simdata mt g2 := rfl

set_option maxRecDepth 20000 in
/-- C5: the run writes exactly the fifteen documented files, records
27 reads for each of the three sample tags and 9 unassigned reads in
`deplex/num_reads.tsv`, and the deplex FASTQ files hold 27/27/27/9 reads
(90 in `multiplex.fastq`). -/
theorem create_fastq_simdata_files (mt : Nat → Nat → Nat) (g : Rng) :
    ((create_fastq_simdata mt g).map (fun q => q.1) =
      ["umi5_umi3_umi_adaptor.fastq", "umi5_umi3_umi.fastq", "umi5_umi3.fastq",
       "umi3_umi_adaptor.fastq", "umi3_umi.fastq", "umi3.fastq",
       "multiplex_barcodes.tsv", "multiplex_umi_barcode_adaptor.fastq",
       "multiplex_umi_barcode.fastq", "multiplex.fastq",
       "deplex/Tag0.fastq", "deplex/Tag1.fastq", "deplex/Tag2.fastq",
       "deplex/Unassigned.fastq", "deplex/num_reads.tsv"]) ∧
    (fsLookup (create_fastq_simdata mt g) "deplex/num_reads.tsv" =
      some (FileContent.tsv
        [["SampleID", "TagRead", "NumReads"],
         ["Tag0", "ACG", "27"], ["Tag1", "GAC", "27"], ["Tag2", "CGA", "27"],
         ["Unassigned", "9"]])) ∧
    (countRecords (create_fastq_simdata mt g) "deplex/Tag0.fastq" = some 27) ∧
    (countRecords (create_fastq_simdata mt g) "deplex/Tag1.fastq" = some 27) ∧
    (countRecords (create_fastq_simdata mt g) "deplex/Tag2.fastq" = some 27) ∧
    (countRecords (create_fastq_simdata mt g) "deplex/Unassigned.fastq" = some 9) ∧
    (countRecords (create_fastq_simdata mt g) "multiplex.fastq" = some 90) := by
  refine ⟨?_, ?_, ?_, ?_, ?_, ?_, ?_⟩
  · simp only [create_fastq_simdata, pyEnumerate, barcode_sets, barcode_names,
      List.foldl_cons, List.foldl_nil]
    rw [map_fst_writeTsv]
    rw [map_fst_moveFile_isSome _ _ _ (by
      repeat rw [iter_lookup_ne _ _ _ _ _ (by decide) (by decide) (by decide) (by decide)]
      rw [iter_lookup_tag _ _ _ _ (by decide) (by decide) (by decide)]
      rfl)]
    simp only [iter_map_fst, map_fst_writeTsv, map_fst_writeFastq, List.map_nil]
    decide
  · simp only [create_fastq_simdata, pyEnumerate, barcode_sets, barcode_names,
      List.foldl_cons, List.foldl_nil]
    rw [fsLookup_writeTsv_self]
    simp only [iter_counts]
    decide
  · simp only [create_fastq_simdata, pyEnumerate, barcode_sets, barcode_names,
      List.foldl_cons, List.foldl_nil, countRecords]
    rw [fsLookup_writeTsv_ne _ _ _ _ (by decide)]
    rw [moveFile_of_isSome _ _ _ (by
      repeat rw [iter_lookup_ne _ _ _ _ _ (by decide) (by decide) (by decide) (by decide)]
      rw [iter_lookup_tag _ _ _ _ (by decide) (by decide) (by decide)]
      rfl)]
    rw [fsLookup_append]
    rw [fsLookup_removeFile _ _ _ (by decide)]
    rw [← tp0]
    repeat
      first
      | rw [iter_lookup_ne _ _ _ _ _ (by decide) (by decide) (by decide) (by decide)]
      | rw [iter_lookup_tag _ _ _ _ (by decide) (by decide) (by decide)]
    rw [fsLookup_writeTsv_ne _ _ _ _ (by decide)]
    repeat rw [fsLookup_writeFastq_ne _ _ _ _ (by decide)]
    rw [fsLookup_nil]
    simp [List.length_append, List.length_map, iterationRecords_length]
  · simp only [create_fastq_simdata, pyEnumerate, barcode_sets, barcode_names,
      List.foldl_cons, List.foldl_nil, countRecords]
    rw [fsLookup_writeTsv_ne _ _ _ _ (by decide)]
    rw [moveFile_of_isSome _ _ _ (by
      repeat rw [iter_lookup_ne _ _ _ _ _ (by decide) (by decide) (by decide) (by decide)]
      rw [iter_lookup_tag _ _ _ _ (by decide) (by decide) (by decide)]
      rfl)]
    rw [fsLookup_append]
    rw [fsLookup_removeFile _ _ _ (by decide)]
    rw [← tp1]
    repeat
      first
      | rw [iter_lookup_ne _ _ _ _ _ (by decide) (by decide) (by decide) (by decide)]
      | rw [iter_lookup_tag _ _ _ _ (by decide) (by decide) (by decide)]
    rw [fsLookup_writeTsv_ne _ _ _ _ (by decide)]
    repeat rw [fsLookup_writeFastq_ne _ _ _ _ (by decide)]
    rw [fsLookup_nil]
    simp [List.length_append, List.length_map, iterationRecords_length]
  · simp only [create_fastq_simdata, pyEnumerate, barcode_sets, barcode_names,
      List.foldl_cons, List.foldl_nil, countRecords]
    rw [fsLookup_writeTsv_ne _ _ _ _ (by decide)]
    rw [moveFile_of_isSome _ _ _ (by
      repeat rw [iter_lookup_ne _ _ _ _ _ (by decide) (by decide) (by decide) (by decide)]
      rw [iter_lookup_tag _ _ _ _ (by decide) (by decide) (by decide)]
      rfl)]
    rw [fsLookup_append]
    rw [fsLookup_removeFile _ _ _ (by decide)]
    rw [← tp2]
    repeat
      first
      | rw [iter_lookup_ne _ _ _ _ _ (by decide) (by decide) (by decide) (by decide)]
      | rw [iter_lookup_tag _ _ _ _ (by decide) (by decide) (by decide)]
    rw [fsLookup_writeTsv_ne _ _ _ _ (by decide)]
    repeat rw [fsLookup_writeFastq_ne _ _ _ _ (by decide)]
    rw [fsLookup_nil]
    simp [List.length_append, List.length_map, iterationRecords_length]
  · simp only [create_fastq_simdata, pyEnumerate, barcode_sets, barcode_names,
      List.foldl_cons, List.foldl_nil, countRecords]
    rw [fsLookup_writeTsv_ne _ _ _ _ (by decide)]
    rw [moveFile_of_isSome _ _ _ (by
      repeat rw [iter_lookup_ne _ _ _ _ _ (by decide) (by decide) (by decide) (by decide)]
      rw [iter_lookup_tag _ _ _ _ (by decide) (by decide) (by decide)]
      rfl)]
    rw [fsLookup_append]
    rw [fsLookup_removeFile _ _ _ (by decide)]
    repeat rw [iter_lookup_ne _ _ _ _ _ (by decide) (by decide) (by decide) (by decide)]
    rw [fsLookup_writeTsv_ne _ _ _ _ (by decide)]
    repeat rw [fsLookup_writeFastq_ne _ _ _ _ (by decide)]
    rw [fsLookup_nil]
    rw [fsLookup_singleton]
    rw [iter_lookup_tag _ _ _ _ (by decide) (by decide) (by decide)]
    repeat rw [iter_lookup_ne _ _ _ _ _ (by decide) (by decide) (by decide) (by decide)]
    rw [fsLookup_writeTsv_ne _ _ _ _ (by decide)]
    repeat rw [fsLookup_writeFastq_ne _ _ _ _ (by decide)]
    rw [fsLookup_nil]
    simp [fastqFileName, Option.getD, List.length_map, iterationRecords_length]
  · simp only [create_fastq_simdata, pyEnumerate, barcode_sets, barcode_names,
      List.foldl_cons, List.foldl_nil, countRecords]
    rw [fsLookup_writeTsv_ne _ _ _ _ (by decide)]
    rw [moveFile_of_isSome _ _ _ (by
      repeat rw [iter_lookup_ne _ _ _ _ _ (by decide) (by decide) (by decide) (by decide)]
      rw [iter_lookup_tag _ _ _ _ (by decide) (by decide) (by decide)]
      rfl)]
    rw [fsLookup_append]
    rw [fsLookup_removeFile _ _ _ (by decide)]
    repeat rw [iter_lookup_multiplex _ _ _ _ (by decide)]
    rw [fsLookup_writeTsv_ne _ _ _ _ (by decide)]
    repeat rw [fsLookup_writeFastq_ne _ _ _ _ (by decide)]
    rw [fsLookup_nil]
    simp [List.length_append, List.length_map, iterationRecords_length]

end Simdata
